import Mathlib

/-!
Shallow embedding of the webpack runtime bootstrap in
`src/Dodo code/websiteScrapedData/prettywebsite.js`.

The runtime keeps four pieces of shared state:
  * `modules` / `installedModules` — the module registry (`__webpack_require__`);
  * `installedChunks` and `chunkStatus` — two separate per-chunk tables
    (the source declares both; `loadChunk` and its script handler use
    `chunkStatus`, while the jsonp push callback and `checkDeferredModules`
    use `installedChunks`);
  * `chunkQueue` — the deferred-entry queue;
  * a promise table modelling the futures created by `loadChunk`.

JS property tables are modelled as association lists (`alookup` / `aset`);
an absent key is JS `undefined`.  Module keys are `Option Nat`: `some n` is
a numeric id, `none` is the property key `"undefined"` (reachable because
the push callback calls `__webpack_require__(chunkData[2])` even when the
third component is absent).  Module factories are external opaque payloads
(the source boots with an empty `modules` array; factories arrive only in
delivered chunks), so they are modelled as data: a list of field writes to
their own exports object, optionally throwing after a prefix of the writes.
They do not re-enter the runtime, matching the source's treatment of them
as opaque.  Heap identity of exports objects is modelled by allocating a
fresh address (`nextId`) per record.
-/

/-- Association-list lookup; the first binding for a key wins. -/
def alookup {κ β : Type} [DecidableEq κ] (k : κ) : List (κ × β) → Option β
  | [] => none
  | (k', v) :: t => if k' = k then some v else alookup k t

/-- Association-list update in place: replaces the first binding for the
key, or appends a new binding at the end. -/
def aset {κ β : Type} [DecidableEq κ] (k : κ) (v : β) : List (κ × β) → List (κ × β)
  | [] => [(k, v)]
  | (k', v') :: t => if k' = k then (k, v) :: t else (k', v') :: aset k v t

/-- A JS property key in the module tables: `some n` for a numeric module
id, `none` for the key `"undefined"`. -/
abbrev MKey := Option Nat

/-- A module factory, modelled as data: a list of `(field, value)` writes
it performs on its exports object, and optionally the number of writes
after which it throws. -/
structure Factory where
  writes : List (Nat × Nat)
  throwsAfter : Option Nat
deriving DecidableEq

/-- An `installedModules` record: `{ i: moduleId, l: false, exports: {} }`. -/
structure ModRecord where
  i : MKey
  l : Bool
  exportsAddr : Nat
deriving DecidableEq

/-- A cell of `installedChunks` / `chunkStatus`: `undefined`, `0` (done),
or the `[resolve, reject, promise]` triple of a pending load (identified
by its promise id). -/
inductive ChunkCell where
  | undef
  | done
  | pending (pid : Nat)
deriving DecidableEq

/-- The error object built by the script load/error handler. -/
structure ChunkErr where
  message : String
  name : String
  type : String
  request : Option String
deriving DecidableEq

/-- The state of a promise created by `loadChunk`. -/
inductive PromState where
  | pending
  | rejectedWith (e : ChunkErr)
  | resolvedP
deriving DecidableEq

/-- A deferred entry `[entryModuleId, depChunkId, ...]` on `chunkQueue`. -/
structure Entry where
  moduleId : MKey
  deps : List Nat
deriving DecidableEq

/-- Observable runtime events, recorded in an instrumentation log:
a script fetch issued by `loadChunk`, a factory invocation by
`__webpack_require__`, a deferred entry fired by `checkDeferredModules`,
and the forwarding of chunk data to the original array `push`. -/
inductive REvent where
  | fetch (cid : Nat) (url : String)
  | factoryRun (k : MKey)
  | execEntry (e : Entry)
  | forwarded
deriving DecidableEq

/-- A thrown JS exception: the `TypeError` raised by calling
`modules[moduleId].call` when no factory is registered, or an exception
thrown by a factory body. -/
inductive JsErr where
  | typeError (msg : String)
  | factoryThrew
deriving DecidableEq

/-- The event passed to the script `onload`/`onerror` handler: its `type`
and `target.src` (the synthetic timeout event passes the script itself as
target, so its `src` is the chunk url). -/
structure ScriptEvent where
  etype : String
  targetSrc : Option String
deriving DecidableEq

/-- The future returned by `loadChunk`, i.e. `Promise.all(promises)`:
`promises` is empty (already-done chunk: resolves immediately), contains
the raw `[resolve, reject, promise]` array (a non-thenable, so
`Promise.all` resolves immediately with it), or contains the pending
promise `pid` (the result settles exactly with `pid`). -/
inductive Future where
  | resolvedEmpty
  | resolvedWithRawCell (pid : Nat)
  | pendingOn (pid : Nat)
deriving DecidableEq

/-- The whole runtime state. -/
structure RtState where
  modules : List (MKey × Factory)
  installedModules : List (MKey × ModRecord)
  installedChunks : List (Nat × ChunkCell)
  chunkStatus : List (Nat × ChunkCell)
  chunkQueue : List Entry
  promises : List (Nat × PromState)
  heap : List (Nat × List (Nat × Nat))
  timers : List Nat
  nextId : Nat
  sField : Option MKey
  log : List REvent
deriving DecidableEq

/-- The argument of a jsonp push: `[chunkIds, moreModules, executeModules]`;
the third component is a module id or absent (`undefined`). -/
structure ChunkData where
  chunkIds : List Nat
  moreModules : List (Nat × Factory)
  executeModules : MKey
deriving DecidableEq

/-- `__webpack_require__.p`, the fixed base path. -/
def basePath : String := "https://cdn2.edulastic.com/JS/dist/"

/-- The script url synthesized by `loadChunk`:
`__webpack_require__.p + chunkId + '.chunk.js'`. -/
def chunkUrl (cid : Nat) : String := basePath ++ toString cid ++ ".chunk.js"

/-- Rendering of a module key as a JS property key string. -/
def keyStr : MKey → String
  | some n => toString n
  | none => "undefined"

/-- Property read on a chunk table; an absent key is `undefined`. -/
def getCell (m : List (Nat × ChunkCell)) (cid : Nat) : ChunkCell :=
  (alookup cid m).getD ChunkCell.undef

/-- Runs a factory body on its exports object at `addr`: performs its
writes (all of them, or the prefix before its throw point) and reports
whether it threw. -/
def runFactory (f : Factory) (addr : Nat) (s : RtState) : Except JsErr Unit × RtState :=
  match f.throwsAfter with
  | none =>
    (.ok (), { s with heap := aset addr (((alookup addr s.heap).getD []) ++ f.writes) s.heap })
  | some k =>
    (.error .factoryThrew,
     { s with heap := aset addr (((alookup addr s.heap).getD []) ++ f.writes.take k) s.heap })

/-- `function __webpack_require__(moduleId)`: return the cached exports if
the module record exists; otherwise create and cache the record (before
the factory lookup), run `modules[moduleId].call(...)` — a `TypeError` if
no factory is registered — then set `module.l = true` and return the
exports.  The returned `Nat` is the heap address of the exports object;
a thrown exception is an `.error` result, with all state mutations made
so far kept (JS exceptions do not roll back assignments). -/
def __webpack_require__ (k : MKey) (s : RtState) : Except JsErr Nat × RtState :=
  match alookup k s.installedModules with
  | some rec => (.ok rec.exportsAddr, s)
  | none =>
    let addr := s.nextId
    let s1 := { s with
      nextId := s.nextId + 1,
      heap := aset addr [] s.heap,
      installedModules := aset k { i := k, l := false, exportsAddr := addr } s.installedModules }
    match alookup k s1.modules with
    | none => (.error (.typeError ("modules[" ++ keyStr k ++ "] is undefined")), s1)
    | some f =>
      let s2 := { s1 with log := s1.log ++ [.factoryRun k] }
      match runFactory f addr s2 with
      | (.error e, s3) => (.error e, s3)
      | (.ok _, s3) =>
        (.ok addr,
         { s3 with installedModules := aset k { i := k, l := true, exportsAddr := addr } s3.installedModules })

/-- Settles a pending promise by rejection; settling an already-settled
promise is a no-op. -/
def rejectProm (pid : Nat) (e : ChunkErr) (ps : List (Nat × PromState)) : List (Nat × PromState) :=
  match alookup pid ps with
  | some .pending => aset pid (.rejectedWith e) ps
  | _ => ps

/-- Settles a pending promise by resolution; settling an already-settled
promise is a no-op. -/
def resolveProm (pid : Nat) (ps : List (Nat × PromState)) : List (Nat × PromState) :=
  match alookup pid ps with
  | some .pending => aset pid .resolvedP ps
  | _ => ps

/-- The error object the handler builds:
`'Loading chunk ' + chunkId + ' failed.\n(' + type + ': ' + request + ')'`
with `type` mapped from `'load'` to `'missing'` and `request` the event
target's `src`. -/
def mkChunkErr (cid : Nat) (ev : ScriptEvent) : ChunkErr :=
  let ty := if ev.etype = "load" then "missing" else ev.etype
  { message := "Loading chunk " ++ toString cid ++ " failed.\n(" ++ ty ++ ": "
      ++ (ev.targetSrc.getD "undefined") ++ ")"
    name := "ChunkLoadError"
    type := ty
    request := ev.targetSrc }

/-- The shared `script.onerror = script.onload` handler of `loadChunk`:
clear the timeout timer, read `chunkStatus[chunkId]`; if it is not `0`:
when it is truthy (the pending triple) reject its promise with the built
error, and in either case set `chunkStatus[chunkId] = undefined`. -/
def onScriptComplete (cid tid : Nat) (ev : ScriptEvent) (s : RtState) : RtState :=
  let s1 := { s with timers := s.timers.filter (fun t => decide (t ≠ tid)) }
  match getCell s1.chunkStatus cid with
  | .done => s1
  | .undef => { s1 with chunkStatus := aset cid .undef s1.chunkStatus }
  | .pending pid =>
    { s1 with
      promises := rejectProm pid (mkChunkErr cid ev) s1.promises,
      chunkStatus := aset cid .undef s1.chunkStatus }

/-- The timeout timer firing:
`script.onerror({ type: 'timeout', target: script })` — the target is the
script element, whose `src` was set to the chunk url. -/
def fireTimeout (cid tid : Nat) (s : RtState) : RtState :=
  onScriptComplete cid tid { etype := "timeout", targetSrc := some (chunkUrl cid) } s

/-- `function loadChunk(chunkId)`: if `chunkStatus[chunkId]` is truthy
(the pending triple), push that raw array onto `promises`; else if it is
not `0`, create a pending promise, store the triple, create the script
(src from `chunkUrl`), install the handler, start the 120s timer and
append the script (the fetch).  Returns `Promise.all(promises)`. -/
def loadChunk (cid : Nat) (s : RtState) : Future × RtState :=
  match getCell s.chunkStatus cid with
  | .pending pid => (.resolvedWithRawCell pid, s)
  | .done => (.resolvedEmpty, s)
  | .undef =>
    let pid := s.nextId
    let tid := s.nextId + 1
    (.pendingOn pid,
     { s with
       nextId := s.nextId + 2,
       promises := aset pid .pending s.promises,
       chunkStatus := aset cid (.pending pid) s.chunkStatus,
       timers := s.timers ++ [tid],
       log := s.log ++ [.fetch cid (chunkUrl cid)] })

/-- Truthiness of `installedChunks[depId] === 0` for the dependency scan. -/
def cellDone : ChunkCell → Bool
  | .done => true
  | _ => false

/-- The inner loop of `checkDeferredModules`: `fulfilled` stays true iff
every dependency chunk id has `installedChunks[depId] === 0`. -/
def fulfilledIn (ic : List (Nat × ChunkCell)) (deps : List Nat) : Bool :=
  deps.all (fun d => cellDone (getCell ic d))

/-- The scan of `checkDeferredModules` over the queue: a fulfilled entry
is spliced out and its module required (`__webpack_require__.s` being set
first; the `execEntry` log event records the firing); an exception from
the require propagates, leaving the splice done and the unscanned tail
queued.  Returns the remaining queue, the result (`result` is the value
of the last require), and the state. -/
def checkAux : List Entry → RtState → Option Nat → List Entry × Except JsErr (Option Nat) × RtState
  | [], s, last => ([], .ok last, s)
  | e :: rest, s, last =>
    if fulfilledIn s.installedChunks e.deps then
      let s1 := { s with sField := some e.moduleId, log := s.log ++ [.execEntry e] }
      match __webpack_require__ e.moduleId s1 with
      | (.error err, s2) => (rest, .error err, s2)
      | (.ok addr, s2) => checkAux rest s2 (some addr)
    else
      let r := checkAux rest s last
      (e :: r.1, r.2.1, r.2.2)

/-- `function checkDeferredModules()`: one scan of the queue. -/
def checkDeferredModules (s : RtState) : Except JsErr (Option Nat) × RtState :=
  let r := checkAux s.chunkQueue s none
  (r.2.1, { r.2.2 with chunkQueue := r.1 })

/-- The delivery loop `while (chunkQueue.length) { checkDeferredModules(); }`,
with explicit fuel standing in for the source's unbounded loop: `none`
means the loop has not exited within `fuel` iterations.  The loop exits
normally when the queue is empty, or abnormally when a scan throws. -/
def drainFuel : Nat → RtState → Option (Except JsErr Unit × RtState)
  | fuel, s =>
    if s.chunkQueue.isEmpty then some (.ok (), s)
    else
      match fuel with
      | 0 => none
      | f + 1 =>
        match checkDeferredModules s with
        | (.error e, s') => some (.error e, s')
        | (.ok _, s') => drainFuel f s'

/-- Termination of the source's unbounded delivery loop, as an inductive
predicate: the loop terminates from `s` iff the queue is empty (normal
exit), a scan throws (abnormal exit), or a scan succeeds and the loop
terminates from the post-scan state. -/
inductive DrainTerminates : RtState → Prop where
  | empty : ∀ s, s.chunkQueue = [] → DrainTerminates s
  | throwExit : ∀ s e, s.chunkQueue ≠ [] → (checkDeferredModules s).1 = .error e →
      DrainTerminates s
  | step : ∀ s r, s.chunkQueue ≠ [] → (checkDeferredModules s).1 = .ok r →
      DrainTerminates (checkDeferredModules s).2 → DrainTerminates s

/-- Marking one delivered chunk id in the push callback: if
`installedChunks` has the key and it is truthy, call its resolver
(`installedChunks[chunkId][0]()`); then set `installedChunks[chunkId] = 0`. -/
def markChunk (s : RtState) (cid : Nat) : RtState :=
  let s1 :=
    match alookup cid s.installedChunks with
    | some (.pending pid) => { s with promises := resolveProm pid s.promises }
    | _ => s
  { s1 with installedChunks := aset cid .done s1.installedChunks }

/-- The `for (moduleId in moreModules)` merge: last write wins. -/
def mergeModules (mm : List (Nat × Factory)) (s : RtState) : RtState :=
  mm.foldl (fun s kf => { s with modules := aset (some kf.1) kf.2 s.modules }) s

/-- The push callback before its drain loop: mark every delivered chunk id,
merge the delivered factories, and forward the data to the original
array's `push` (`oldJsonpFunction`). -/
def deliverMark (cd : ChunkData) (s : RtState) : RtState :=
  let s1 := cd.chunkIds.foldl markChunk s
  let s2 := mergeModules cd.moreModules s1
  { s2 with log := s2.log ++ [.forwarded] }

/-- The overridden `jsonpArray.push(chunkData)`: mark chunks, merge
factories, forward, drain the queue in a loop, then unconditionally
`return __webpack_require__(executeModules)` (the key being `"undefined"`
when the third component is absent).  `none` means the drain loop ran out
of fuel. -/
def jsonpPush (fuel : Nat) (cd : ChunkData) (s : RtState) : Option (Except JsErr Nat × RtState) :=
  match drainFuel fuel (deliverMark cd s) with
  | none => none
  | some (.error e, s') => some (.error e, s')
  | some (.ok _, s') => some (__webpack_require__ cd.executeModules s')

/-- The boot state of the IIFE: `modules` is the empty array, chunk 77 is
pre-completed in both tables, everything else empty.  (The boot-time
`checkDeferredModules()` call scans the empty queue and changes nothing.) -/
def initState : RtState :=
  { modules := []
    installedModules := []
    installedChunks := [(77, .done)]
    chunkStatus := [(77, .done)]
    chunkQueue := []
    promises := []
    heap := []
    timers := []
    nextId := 0
    sField := none
    log := [] }

/-- Number of factory invocations of module key `k` in a log. -/
def runCount (k : MKey) (l : List REvent) : Nat :=
  l.countP (fun ev => decide (ev = REvent.factoryRun k))

/-- Number of firings of deferred entry `e` in a log. -/
def execCount (e : Entry) (l : List REvent) : Nat :=
  l.countP (fun ev => decide (ev = REvent.execEntry e))

/-- Number of occurrences of entry `e` in a queue. -/
def entryCount (e : Entry) (q : List Entry) : Nat :=
  q.countP (fun x => decide (x = e))

/-! ## Fixture states and data for the claim theorems -/

deriving instance DecidableEq for Except

def c1State : RtState :=
  { initState with modules := [(some 3, { writes := [(0, 7)], throwsAfter := none })] }

def c10State : RtState :=
  { initState with modules := [(some 6, { writes := [(0, 1), (1, 2)], throwsAfter := some 1 })] }

/-- Number of fetches issued for chunk `cid` in a log. -/
def fetchCount (cid : Nat) (l : List REvent) : Nat :=
  l.countP (fun ev =>
    match ev with
    | .fetch c _ => decide (c = cid)
    | _ => false)

def c2Data : ChunkData :=
  { chunkIds := [5]
    moreModules := [(9, { writes := [(0, 42)], throwsAfter := none })]
    executeModules := some 9 }

def c2AfterLoad : RtState := (loadChunk 5 initState).2

def c2AfterPush : RtState := ((jsonpPush 1 c2Data c2AfterLoad).getD (.ok 0, initState)).2

def c2AfterLoadEvent : RtState :=
  onScriptComplete 5 1 { etype := "load", targetSrc := some (chunkUrl 5) } c2AfterPush

def c9Data : ChunkData :=
  { chunkIds := [3]
    moreModules := [(7, { writes := [(1, 1)], throwsAfter := none })]
    executeModules := none }

def c9Out : Except JsErr Nat × RtState := (jsonpPush 0 c9Data initState).getD (.ok 0, initState)

def c9DataEntry : ChunkData := { c9Data with executeModules := some 7 }

def c9OutEntry : Except JsErr Nat × RtState :=
  (jsonpPush 0 c9DataEntry initState).getD (.ok 0, initState)

def c4AfterTimeout : RtState := fireTimeout 9 1 (loadChunk 9 initState).2

def c6BadState : RtState :=
  { initState with chunkQueue := [{ moduleId := some 0, deps := [5] }] }

def c6Data : ChunkData := { chunkIds := [], moreModules := [], executeModules := some 0 }

def c7Stuck : RtState :=
  { initState with chunkQueue := [{ moduleId := some 1, deps := [8] }] }

def c7Ready : RtState :=
  { initState with
    chunkQueue := [{ moduleId := some 1, deps := [77] }]
    modules := [(some 1, { writes := [], throwsAfter := none })] }

/-! ## Association-list lemmas -/

theorem alookup_aset_self {κ β : Type} [DecidableEq κ] (k : κ) (v : β) (l : List (κ × β)) :
    alookup k (aset k v l) = some v := by
  induction l with
  | nil => simp [aset, alookup]
  | cons p t ih =>
    obtain ⟨k', v'⟩ := p
    by_cases hk : k' = k
    · simp [aset, hk, alookup]
    · simp [aset, hk, alookup, ih]

theorem alookup_aset_ne {κ β : Type} [DecidableEq κ] (k k' : κ) (v : β) (l : List (κ × β))
    (h : k ≠ k') : alookup k' (aset k v l) = alookup k' l := by
  induction l with
  | nil => simp [aset, alookup, h]
  | cons p t ih =>
    obtain ⟨k'', v''⟩ := p
    by_cases hk : k'' = k
    · subst hk
      simp [aset, alookup, h, ih]
    · simp [aset, hk, alookup, ih]

theorem aset_same {κ β : Type} [DecidableEq κ] (k : κ) (v : β) (l : List (κ × β))
    (h : alookup k l = some v) : aset k v l = l := by
  induction l with
  | nil => simp [alookup] at h
  | cons p t ih =>
    obtain ⟨k', v'⟩ := p
    by_cases hk : k' = k
    · subst hk
      simp [alookup] at h
      simp [aset, h]
    · simp [alookup, hk] at h
      simp [aset, hk, ih h]

/-! ## Characterization of `__webpack_require__` on each source path -/

/-- Cached module: the first guard returns the cached exports, no state
change. -/
theorem require_cached (k : MKey) (s : RtState) (rec : ModRecord)
    (h : alookup k s.installedModules = some rec) :
    __webpack_require__ k s = (.ok rec.exportsAddr, s) := by
  unfold __webpack_require__
  rw [h]

/-- Fresh module with a registered, non-throwing factory. -/
theorem require_fresh_ok (k : MKey) (s : RtState) (f : Factory)
    (h1 : alookup k s.installedModules = none)
    (h2 : alookup k s.modules = some f)
    (h3 : f.throwsAfter = none) :
    __webpack_require__ k s =
      (.ok s.nextId,
       { s with
         nextId := s.nextId + 1,
         heap := aset s.nextId f.writes (aset s.nextId [] s.heap),
         installedModules :=
           aset k { i := k, l := true, exportsAddr := s.nextId }
             (aset k { i := k, l := false, exportsAddr := s.nextId } s.installedModules),
         log := s.log ++ [.factoryRun k] }) := by
  unfold __webpack_require__ runFactory
  rw [h1]
  simp [h2, h3, alookup_aset_self]

/-- Fresh module with no registered factory: `modules[moduleId].call`
raises a `TypeError`; the freshly created record stays cached. -/
theorem require_fresh_missing (k : MKey) (s : RtState)
    (h1 : alookup k s.installedModules = none)
    (h2 : alookup k s.modules = none) :
    __webpack_require__ k s =
      (.error (.typeError ("modules[" ++ keyStr k ++ "] is undefined")),
       { s with
         nextId := s.nextId + 1,
         heap := aset s.nextId [] s.heap,
         installedModules :=
           aset k { i := k, l := false, exportsAddr := s.nextId } s.installedModules }) := by
  unfold __webpack_require__
  rw [h1]
  simp [h2]

/-- Fresh module whose factory throws after `j` writes: the partially
initialized record and exports stay cached, `module.l` is never set. -/
theorem require_fresh_throw (k : MKey) (s : RtState) (f : Factory) (j : Nat)
    (h1 : alookup k s.installedModules = none)
    (h2 : alookup k s.modules = some f)
    (h3 : f.throwsAfter = some j) :
    __webpack_require__ k s =
      (.error .factoryThrew,
       { s with
         nextId := s.nextId + 1,
         heap := aset s.nextId (f.writes.take j) (aset s.nextId [] s.heap),
         installedModules :=
           aset k { i := k, l := false, exportsAddr := s.nextId } s.installedModules,
         log := s.log ++ [.factoryRun k] }) := by
  unfold __webpack_require__ runFactory
  rw [h1]
  simp [h2, h3, alookup_aset_self]

/-! ## Log counting lemmas -/

theorem runCount_append_run (k : MKey) (l : List REvent) :
    runCount k (l ++ [.factoryRun k]) = runCount k l + 1 := by
  simp [runCount, List.countP_append, List.countP_cons]

theorem execCount_append_run (e : Entry) (k : MKey) (l : List REvent) :
    execCount e (l ++ [.factoryRun k]) = execCount e l := by
  simp [execCount, List.countP_append, List.countP_cons]

theorem execCount_append_exec (e x : Entry) (l : List REvent) :
    execCount e (l ++ [.execEntry x]) = execCount e l + if x = e then 1 else 0 := by
  by_cases h : x = e <;> simp [execCount, List.countP_append, List.countP_cons, h]

/-! ## C1: require twice runs the factory once, same exports reference -/

/-- C1: for every module id with a registered (terminating, non-throwing)
factory and no cached record, requesting it twice in sequence via
`__webpack_require__` returns the same exports address both times (the
identical cached exports object), the second call leaves the state
untouched, and the factory-invocation count rises by exactly one across
the two calls. -/
theorem c1_require_twice_runs_factory_once (s : RtState) (m : Nat) (f : Factory)
    (h1 : alookup (some m) s.installedModules = none)
    (h2 : alookup (some m) s.modules = some f)
    (h3 : f.throwsAfter = none) :
    (__webpack_require__ (some m) s).1 = .ok s.nextId ∧
    (__webpack_require__ (some m) ((__webpack_require__ (some m) s).2)).1 = .ok s.nextId ∧
    (__webpack_require__ (some m) ((__webpack_require__ (some m) s).2)).2 =
      (__webpack_require__ (some m) s).2 ∧
    runCount (some m) ((__webpack_require__ (some m) s).2).log = runCount (some m) s.log + 1 ∧
    runCount (some m) ((__webpack_require__ (some m) ((__webpack_require__ (some m) s).2)).2).log =
      runCount (some m) s.log + 1 := by
  have e1 := require_fresh_ok (some m) s f h1 h2 h3
  have hcache :
      alookup (some m) ((__webpack_require__ (some m) s).2).installedModules =
        some { i := some m, l := true, exportsAddr := s.nextId } := by
    rw [e1]
    exact alookup_aset_self _ _ _
  have e2 := require_cached (some m) ((__webpack_require__ (some m) s).2) _ hcache
  refine ⟨by rw [e1], by rw [e2], by rw [e2], ?_, ?_⟩
  · rw [e1]
    exact runCount_append_run _ _
  · rw [e2, e1]
    exact runCount_append_run _ _

/-- Witness for C1 at module id 3 in a registry holding one factory. -/
theorem c1_witness :
    (__webpack_require__ (some 3) c1State).1 = .ok 0 ∧
    (__webpack_require__ (some 3) ((__webpack_require__ (some 3) c1State).2)).1 = .ok 0 ∧
    (__webpack_require__ (some 3) ((__webpack_require__ (some 3) c1State).2)).2 =
      (__webpack_require__ (some 3) c1State).2 ∧
    runCount (some 3) ((__webpack_require__ (some 3) c1State).2).log =
      runCount (some 3) c1State.log + 1 ∧
    runCount (some 3)
        ((__webpack_require__ (some 3) ((__webpack_require__ (some 3) c1State).2)).2).log =
      runCount (some 3) c1State.log + 1 :=
  c1_require_twice_runs_factory_once c1State 3 { writes := [(0, 7)], throwsAfter := none }
    (by decide) (by decide) (by decide)

/-! ## C8: requiring an unregistered module id is a fatal lookup failure -/

/-- C8: for every module key with no registered factory and no cached
record, `__webpack_require__` raises a `TypeError` (the call chain
aborts); no exports value is returned. -/
theorem c8_missing_module_fatal (s : RtState) (k : MKey)
    (h1 : alookup k s.installedModules = none)
    (h2 : alookup k s.modules = none) :
    (__webpack_require__ k s).1 =
      .error (.typeError ("modules[" ++ keyStr k ++ "] is undefined")) ∧
    ∀ a, (__webpack_require__ k s).1 ≠ .ok a := by
  have e1 := require_fresh_missing k s h1 h2
  refine ⟨by rw [e1], ?_⟩
  intro a
  rw [e1]
  simp

/-- Witness for C8 at module id 4 in the boot state. -/
theorem c8_witness :
    (__webpack_require__ (some 4) initState).1 =
      .error (.typeError ("modules[" ++ keyStr (some 4) ++ "] is undefined")) ∧
    ∀ a, (__webpack_require__ (some 4) initState).1 ≠ .ok a :=
  c8_missing_module_fatal initState (some 4) (by decide) (by decide)

/-! ## C10: a throwing factory leaves the partial record cached -/

/-- C10: if a fresh module's factory throws after `j` of its writes, the
require call reports the exception, but the partially initialized record
stays cached (`l` still `false`, exports holding only the first `j`
writes); a second request returns that same partially-populated exports
address without re-invoking the factory, so the at-most-once factory
invariant holds even on error. -/
theorem c10_throwing_factory_record_kept (s : RtState) (m : Nat) (f : Factory) (j : Nat)
    (h1 : alookup (some m) s.installedModules = none)
    (h2 : alookup (some m) s.modules = some f)
    (h3 : f.throwsAfter = some j) :
    (__webpack_require__ (some m) s).1 = .error .factoryThrew ∧
    alookup (some m) ((__webpack_require__ (some m) s).2).installedModules =
      some { i := some m, l := false, exportsAddr := s.nextId } ∧
    alookup s.nextId ((__webpack_require__ (some m) s).2).heap = some (f.writes.take j) ∧
    (__webpack_require__ (some m) ((__webpack_require__ (some m) s).2)).1 = .ok s.nextId ∧
    (__webpack_require__ (some m) ((__webpack_require__ (some m) s).2)).2 =
      (__webpack_require__ (some m) s).2 ∧
    runCount (some m) ((__webpack_require__ (some m) ((__webpack_require__ (some m) s).2)).2).log =
      runCount (some m) s.log + 1 := by
  have e1 := require_fresh_throw (some m) s f j h1 h2 h3
  have hcache :
      alookup (some m) ((__webpack_require__ (some m) s).2).installedModules =
        some { i := some m, l := false, exportsAddr := s.nextId } := by
    rw [e1]
    exact alookup_aset_self _ _ _
  have e2 := require_cached (some m) ((__webpack_require__ (some m) s).2) _ hcache
  refine ⟨by rw [e1], hcache, ?_, by rw [e2], by rw [e2], ?_⟩
  · rw [e1]
    exact alookup_aset_self _ _ _
  · rw [e2, e1]
    exact runCount_append_run _ _

/-- Witness for C10 at module id 6 whose factory throws after one write. -/
theorem c10_witness :
    (__webpack_require__ (some 6) c10State).1 = .error .factoryThrew ∧
    alookup (some 6) ((__webpack_require__ (some 6) c10State).2).installedModules =
      some { i := some 6, l := false, exportsAddr := 0 } ∧
    alookup 0 ((__webpack_require__ (some 6) c10State).2).heap = some [(0, 1)] ∧
    (__webpack_require__ (some 6) ((__webpack_require__ (some 6) c10State).2)).1 = .ok 0 ∧
    (__webpack_require__ (some 6) ((__webpack_require__ (some 6) c10State).2)).2 =
      (__webpack_require__ (some 6) c10State).2 ∧
    runCount (some 6)
        ((__webpack_require__ (some 6) ((__webpack_require__ (some 6) c10State).2)).2).log =
      runCount (some 6) c10State.log + 1 :=
  c10_throwing_factory_record_kept c10State 6
    { writes := [(0, 1), (1, 2)], throwsAfter := some 1 } 1
    (by decide) (by decide) (by decide)

/-! ## Handler and loader characterization lemmas -/

theorem filter_idem {α : Type} (p : α → Bool) (l : List α) :
    (l.filter p).filter p = l.filter p := by
  induction l with
  | nil => simp
  | cons a t ih =>
    by_cases h : p a <;> simp [h, ih]

theorem getCell_aset_self (m : List (Nat × ChunkCell)) (cid : Nat) (v : ChunkCell) :
    getCell (aset cid v m) cid = v := by
  simp [getCell, alookup_aset_self]

theorem rejectProm_pending (pid : Nat) (e : ChunkErr) (ps : List (Nat × PromState))
    (h : alookup pid ps = some .pending) :
    rejectProm pid e ps = aset pid (.rejectedWith e) ps := by
  unfold rejectProm
  rw [h]

/-- Handler on a pending chunk: reject the stored promise and clear the
slot. -/
theorem onScriptComplete_pending (cid tid : Nat) (ev : ScriptEvent) (s : RtState) (pid : Nat)
    (h : getCell s.chunkStatus cid = .pending pid) :
    onScriptComplete cid tid ev s =
      { s with
        timers := s.timers.filter (fun t => decide (t ≠ tid)),
        promises := rejectProm pid (mkChunkErr cid ev) s.promises,
        chunkStatus := aset cid .undef s.chunkStatus } := by
  simp [onScriptComplete, h]

/-- Handler on an already-cleared chunk slot: only rewrites the slot to
`undefined` again (the promise table is untouched). -/
theorem onScriptComplete_undef (cid tid : Nat) (ev : ScriptEvent) (s : RtState)
    (h : getCell s.chunkStatus cid = .undef) :
    onScriptComplete cid tid ev s =
      { s with
        timers := s.timers.filter (fun t => decide (t ≠ tid)),
        chunkStatus := aset cid .undef s.chunkStatus } := by
  simp [onScriptComplete, h]

/-- `loadChunk` on an unrequested chunk: fresh promise, fresh timer, one
fetch. -/
theorem loadChunk_undef (cid : Nat) (s : RtState) (h : getCell s.chunkStatus cid = .undef) :
    loadChunk cid s =
      (.pendingOn s.nextId,
       { s with
         nextId := s.nextId + 2,
         promises := aset s.nextId .pending s.promises,
         chunkStatus := aset cid (.pending s.nextId) s.chunkStatus,
         timers := s.timers ++ [s.nextId + 1],
         log := s.log ++ [.fetch cid (chunkUrl cid)] }) := by
  simp [loadChunk, h]

/-! ## C3: second `loadChunk` while pending -/

/-- C3 evaluated at the failing input: `loadChunk 5` twice from the boot
state.  The first call returns a future pending on promise 0 and issues
the fetch; the second call issues no new fetch and changes no state, but
— because the source pushes the raw `chunkStatus[chunkId]` triple into
`promises` instead of the stored promise — it returns a future that
`Promise.all` resolves immediately, while the first caller's promise 0 is
still pending.  The second future therefore does not settle with the
first one's outcome, contradicting the claim. -/
theorem c3_second_load_resolves_immediately :
    (loadChunk 5 initState).1 = .pendingOn 0 ∧
    alookup 0 ((loadChunk 5 initState).2).promises = some .pending ∧
    (loadChunk 5 ((loadChunk 5 initState).2)).1 = .resolvedWithRawCell 0 ∧
    (loadChunk 5 ((loadChunk 5 initState).2)).2 = (loadChunk 5 initState).2 ∧
    fetchCount 5 ((loadChunk 5 ((loadChunk 5 initState).2)).2).log = 1 := by
  decide

/-! ## C2: delivery before timeout -/

/-- C2 evaluated at the failing input: `loadChunk 5`, then a jsonp
delivery of chunk 5 (before any timeout), then the script's `load` event.
The delivery marks chunk 5 complete in `installedChunks`, but the waiter
created by `loadChunk` lives in `chunkStatus`, which the push callback
never reads: promise 0 is still pending after the delivery, and the
subsequent `load` event finds the pending slot and rejects promise 0 with
classification `"missing"`.  The future is never resolved, contradicting
the claim. -/
theorem c2_delivery_then_load_rejects_missing :
    (loadChunk 5 initState).1 = .pendingOn 0 ∧
    (jsonpPush 1 c2Data c2AfterLoad).isSome ∧
    getCell c2AfterPush.installedChunks 5 = .done ∧
    alookup 0 c2AfterPush.promises = some .pending ∧
    getCell c2AfterPush.chunkStatus 5 = .pending 0 ∧
    alookup 0 c2AfterLoadEvent.promises =
      some (.rejectedWith (mkChunkErr 5 { etype := "load", targetSrc := some (chunkUrl 5) })) ∧
    (mkChunkErr 5 { etype := "load", targetSrc := some (chunkUrl 5) }).type = "missing" := by
  decide

/-! ## C9: delivery with no entry module id -/

/-- C9 evaluated at the failing input: a delivery with no entry module id.
The push callback still marks chunk 3 complete and merges the factory,
but it then unconditionally calls `__webpack_require__(executeModules)`
with the key `"undefined"`, which is a fatal lookup failure: the delivery
call throws a `TypeError` instead of completing without executing any
entry module.  With an entry module id present, the entry module is
executed (one factory run) and its exports become the call's return
value, as the claim's first half states. -/
theorem c9_pushes_require_undefined :
    (jsonpPush 0 c9Data initState).isSome ∧
    c9Out.1 = .error (.typeError "modules[undefined] is undefined") ∧
    getCell c9Out.2.installedChunks 3 = .done ∧
    alookup (some 7) c9Out.2.modules = some { writes := [(1, 1)], throwsAfter := none } ∧
    runCount (some 7) c9Out.2.log = 0 ∧
    c9OutEntry.1 = .ok 0 ∧
    runCount (some 7) c9OutEntry.2.log = 1 := by
  decide

/-! ## C4: timeout path -/

/-- C4 counterexample: after `loadChunk 9` and the timeout firing, the
promise is rejected with classification `"timeout"` — but the error DOES
carry the attempted request locator, because the synthetic timeout event
passes the script element as target, whose `src` is the chunk url.  The
claim's "no request locator" is therefore false at this input. -/
theorem c4_counterexample_timeout_has_locator :
    alookup 0 c4AfterTimeout.promises =
      some (.rejectedWith
        { message := "Loading chunk 9 failed.\n(timeout: https://cdn2.edulastic.com/JS/dist/9.chunk.js)"
          name := "ChunkLoadError"
          type := "timeout"
          request := some "https://cdn2.edulastic.com/JS/dist/9.chunk.js" }) ∧
    (mkChunkErr 9 { etype := "timeout", targetSrc := some (chunkUrl 9) }).request ≠ none := by
  decide

/-- C4 amended: a unit whose load neither succeeds nor errors within the
timeout window rejects with classification `"timeout"` and the error
carries the attempted resource locator (the script's `src`); any
success/error signal arriving after the unit is settled is a no-op — the
handler finds the cleared slot, does not touch the promise table, and
leaves the state exactly as it was. -/
theorem c4_amended_timeout_rejects_late_signal_noop
    (s : RtState) (cid pid tid : Nat) (ev2 : ScriptEvent)
    (h1 : getCell s.chunkStatus cid = .pending pid)
    (h2 : alookup pid s.promises = some .pending) :
    alookup pid (fireTimeout cid tid s).promises =
      some (.rejectedWith
        { message := "Loading chunk " ++ toString cid ++ " failed.\n(" ++ "timeout" ++ ": " ++ chunkUrl cid ++ ")"
          name := "ChunkLoadError"
          type := "timeout"
          request := some (chunkUrl cid) }) ∧
    getCell (fireTimeout cid tid s).chunkStatus cid = .undef ∧
    onScriptComplete cid tid ev2 (fireTimeout cid tid s) = fireTimeout cid tid s := by
  have hmk : mkChunkErr cid { etype := "timeout", targetSrc := some (chunkUrl cid) } =
      { message := "Loading chunk " ++ toString cid ++ " failed.\n(" ++ "timeout" ++ ": " ++ chunkUrl cid ++ ")"
        name := "ChunkLoadError"
        type := "timeout"
        request := some (chunkUrl cid) } := by
    simp [mkChunkErr]
  have e1 : fireTimeout cid tid s =
      { s with
        timers := s.timers.filter (fun t => decide (t ≠ tid)),
        promises := rejectProm pid (mkChunkErr cid { etype := "timeout", targetSrc := some (chunkUrl cid) }) s.promises,
        chunkStatus := aset cid .undef s.chunkStatus } := by
    unfold fireTimeout
    exact onScriptComplete_pending cid tid _ s pid h1
  have hrej := rejectProm_pending pid
    (mkChunkErr cid { etype := "timeout", targetSrc := some (chunkUrl cid) }) s.promises h2
  refine ⟨?_, ?_, ?_⟩
  · rw [e1]
    show alookup pid (rejectProm pid _ s.promises) = _
    rw [hrej, hmk]
    exact alookup_aset_self _ _ _
  · rw [e1]
    exact getCell_aset_self _ _ _
  · have hst : (fireTimeout cid tid s).chunkStatus = aset cid .undef s.chunkStatus := by
      rw [e1]
    have htm : (fireTimeout cid tid s).timers = s.timers.filter (fun t => decide (t ≠ tid)) := by
      rw [e1]
    have hcell2 : getCell (fireTimeout cid tid s).chunkStatus cid = .undef := by
      rw [hst]
      exact getCell_aset_self _ _ _
    rw [onScriptComplete_undef cid tid ev2 _ hcell2]
    have h4 : (fireTimeout cid tid s).timers.filter (fun t => decide (t ≠ tid)) =
        (fireTimeout cid tid s).timers := by
      rw [htm]
      exact filter_idem _ _
    have h5 : aset cid ChunkCell.undef (fireTimeout cid tid s).chunkStatus =
        (fireTimeout cid tid s).chunkStatus := by
      rw [hst]
      exact aset_same _ _ _ (alookup_aset_self _ _ _)
    rw [h4, h5]

/-- Witness for the amended C4: chunk 9 from the boot state, timeout
firing, then a late `load` event. -/
theorem c4_witness :
    alookup 0 (fireTimeout 9 1 (loadChunk 9 initState).2).promises =
      some (.rejectedWith
        { message := "Loading chunk " ++ toString 9 ++ " failed.\n(" ++ "timeout" ++ ": " ++ chunkUrl 9 ++ ")"
          name := "ChunkLoadError"
          type := "timeout"
          request := some (chunkUrl 9) }) ∧
    getCell (fireTimeout 9 1 (loadChunk 9 initState).2).chunkStatus 9 = .undef ∧
    onScriptComplete 9 1 { etype := "load", targetSrc := some (chunkUrl 9) }
        (fireTimeout 9 1 (loadChunk 9 initState).2) =
      fireTimeout 9 1 (loadChunk 9 initState).2 :=
  c4_amended_timeout_rejects_late_signal_noop (loadChunk 9 initState).2 9 0 1
    { etype := "load", targetSrc := some (chunkUrl 9) } (by decide) (by decide)

/-! ## C5: error before timeout -/

/-- C5: a load error arriving before the timeout (an event whose type is
not `"load"`, carrying the attempted `src`) rejects the pending future
with an error whose classification is the observed event type, whose
`request` field is the attempted resource locator and whose message names
the unit id; the slot is reset to unrequested, so a subsequent
`loadChunk` for the same unit issues a fresh fetch. -/
theorem c5_error_rejects_and_resets
    (s : RtState) (cid pid tid : Nat) (ev : ScriptEvent) (u : String)
    (h1 : getCell s.chunkStatus cid = .pending pid)
    (h2 : alookup pid s.promises = some .pending)
    (h3 : ev.etype ≠ "load")
    (h4 : ev.targetSrc = some u) :
    alookup pid (onScriptComplete cid tid ev s).promises =
      some (.rejectedWith
        { message := "Loading chunk " ++ toString cid ++ " failed.\n(" ++ ev.etype ++ ": " ++ u ++ ")"
          name := "ChunkLoadError"
          type := ev.etype
          request := some u }) ∧
    getCell (onScriptComplete cid tid ev s).chunkStatus cid = .undef ∧
    (loadChunk cid (onScriptComplete cid tid ev s)).1 =
      .pendingOn (onScriptComplete cid tid ev s).nextId ∧
    (loadChunk cid (onScriptComplete cid tid ev s)).2.log =
      (onScriptComplete cid tid ev s).log ++ [.fetch cid (chunkUrl cid)] := by
  have hmk : mkChunkErr cid ev =
      { message := "Loading chunk " ++ toString cid ++ " failed.\n(" ++ ev.etype ++ ": " ++ u ++ ")"
        name := "ChunkLoadError"
        type := ev.etype
        request := some u } := by
    simp [mkChunkErr, h3, h4]
  have e1 := onScriptComplete_pending cid tid ev s pid h1
  have hrej := rejectProm_pending pid (mkChunkErr cid ev) s.promises h2
  have hcell2 : getCell (onScriptComplete cid tid ev s).chunkStatus cid = .undef := by
    rw [e1]
    exact getCell_aset_self _ _ _
  have e2 := loadChunk_undef cid (onScriptComplete cid tid ev s) hcell2
  refine ⟨?_, hcell2, by rw [e2], by rw [e2]⟩
  rw [e1]
  show alookup pid (rejectProm pid _ s.promises) = _
  rw [hrej, hmk]
  exact alookup_aset_self _ _ _

/-- Witness for C5: chunk 4 from the boot state, an `"error"` event
carrying the script's `src`. -/
theorem c5_witness :
    alookup 0 (onScriptComplete 4 1 { etype := "error", targetSrc := some (chunkUrl 4) }
        (loadChunk 4 initState).2).promises =
      some (.rejectedWith
        { message := "Loading chunk " ++ toString 4 ++ " failed.\n(" ++ "error" ++ ": " ++ chunkUrl 4 ++ ")"
          name := "ChunkLoadError"
          type := "error"
          request := some (chunkUrl 4) }) ∧
    getCell (onScriptComplete 4 1 { etype := "error", targetSrc := some (chunkUrl 4) }
        (loadChunk 4 initState).2).chunkStatus 4 = .undef ∧
    (loadChunk 4 (onScriptComplete 4 1 { etype := "error", targetSrc := some (chunkUrl 4) }
        (loadChunk 4 initState).2)).1 =
      .pendingOn (onScriptComplete 4 1 { etype := "error", targetSrc := some (chunkUrl 4) }
        (loadChunk 4 initState).2).nextId ∧
    (loadChunk 4 (onScriptComplete 4 1 { etype := "error", targetSrc := some (chunkUrl 4) }
        (loadChunk 4 initState).2)).2.log =
      (onScriptComplete 4 1 { etype := "error", targetSrc := some (chunkUrl 4) }
        (loadChunk 4 initState).2).log ++ [.fetch 4 (chunkUrl 4)] :=
  c5_error_rejects_and_resets (loadChunk 4 initState).2 4 0 1
    { etype := "error", targetSrc := some (chunkUrl 4) } (chunkUrl 4)
    (by decide) (by decide) (by decide) rfl

/-! ## Frame lemmas: what each operation leaves untouched -/

/-- `__webpack_require__` never touches the chunk tables, the queue, the
promise table or the timers, and adds no `execEntry` event to the log. -/
theorem require_frame (k : MKey) (s : RtState) :
    (__webpack_require__ k s).2.installedChunks = s.installedChunks ∧
    (__webpack_require__ k s).2.chunkStatus = s.chunkStatus ∧
    (__webpack_require__ k s).2.chunkQueue = s.chunkQueue ∧
    (__webpack_require__ k s).2.promises = s.promises ∧
    (__webpack_require__ k s).2.timers = s.timers ∧
    ∀ e, execCount e (__webpack_require__ k s).2.log = execCount e s.log := by
  unfold __webpack_require__ runFactory
  cases h1 : alookup k s.installedModules with
  | some rec => simp
  | none =>
    cases h2 : alookup k s.modules with
    | none => simp [h2]
    | some f =>
      cases h3 : f.throwsAfter with
      | none => simp [h2, h3, execCount_append_run]
      | some j => simp [h2, h3, execCount_append_run]

theorem markChunk_chunkQueue (s : RtState) (cid : Nat) :
    (markChunk s cid).chunkQueue = s.chunkQueue := by
  unfold markChunk
  cases h : alookup cid s.installedChunks with
  | none => simp
  | some c => cases c <;> simp

theorem foldl_markChunk_chunkQueue (l : List Nat) (s : RtState) :
    (l.foldl markChunk s).chunkQueue = s.chunkQueue := by
  induction l generalizing s with
  | nil => rfl
  | cons a t ih => simp [List.foldl, ih, markChunk_chunkQueue]

theorem mergeModules_chunkQueue (mm : List (Nat × Factory)) (s : RtState) :
    (mergeModules mm s).chunkQueue = s.chunkQueue := by
  unfold mergeModules
  induction mm generalizing s with
  | nil => rfl
  | cons a t ih => simp [List.foldl, ih]

theorem deliverMark_chunkQueue (cd : ChunkData) (s : RtState) :
    (deliverMark cd s).chunkQueue = s.chunkQueue := by
  simp [deliverMark, foldl_markChunk_chunkQueue, mergeModules_chunkQueue]

/-- The drain loop exits immediately, with any fuel, when the queue is
empty. -/
theorem drainFuel_empty (fuel : Nat) (s : RtState) (h : s.chunkQueue = []) :
    drainFuel fuel s = some (.ok (), s) := by
  rw [drainFuel.eq_def]
  simp [h]

/-! ## C6: termination of the delivery drain loop -/

/-- C6 counterexample: a state whose queue holds one entry with the
unsatisfied required unit 5.  A full scan removes nothing — the scan is
already at its fixed point — yet the drain loop does not stop there: it
runs `while (chunkQueue.length)`, so from this state it never terminates.
This contradicts the claim that draining terminates, stopping exactly at
a no-removal scan, "including when some queued entry still has an
unsatisfied required unit". -/
theorem c6_counterexample_stuck_entry_never_exits :
    checkDeferredModules c6BadState = (Except.ok none, c6BadState) ∧
    ¬ DrainTerminates c6BadState := by
  have hfix : checkDeferredModules c6BadState = (Except.ok none, c6BadState) := by decide
  have hne : c6BadState.chunkQueue ≠ ([] : List Entry) := by decide
  refine ⟨hfix, ?_⟩
  intro hterm
  have key : ∀ s, DrainTerminates s → s = c6BadState → False := by
    intro s hs
    induction hs with
    | empty s h =>
      intro heq
      rw [heq] at h
      exact hne h
    | throwExit s e h1 h2 =>
      intro heq
      rw [heq, hfix] at h2
      simp at h2
    | step s r h1 h2 hsub ih =>
      intro heq
      apply ih
      rw [heq, hfix]
  exact key _ hterm rfl

/-- C6 amended: the drain loop stops when the queue is empty, not at a
no-removal scan.  In this runtime nothing ever enqueues a deferred entry,
so the queue is empty after the marking/merging phase of any delivery
batch, the loop performs zero iterations and terminates, and the state
after the delivery still has an empty queue. -/
theorem c6_amended_empty_queue_drain_terminates (s : RtState) (cd : ChunkData) (fuel : Nat)
    (h : s.chunkQueue = []) :
    (deliverMark cd s).chunkQueue = [] ∧
    DrainTerminates (deliverMark cd s) ∧
    drainFuel fuel (deliverMark cd s) = some (.ok (), deliverMark cd s) ∧
    ∃ r s', jsonpPush fuel cd s = some (r, s') ∧ s'.chunkQueue = [] := by
  have hq : (deliverMark cd s).chunkQueue = [] := by
    rw [deliverMark_chunkQueue]
    exact h
  have hdrain := drainFuel_empty fuel _ hq
  refine ⟨hq, DrainTerminates.empty _ hq, hdrain, ?_⟩
  refine ⟨(__webpack_require__ cd.executeModules (deliverMark cd s)).1,
          (__webpack_require__ cd.executeModules (deliverMark cd s)).2, ?_, ?_⟩
  · unfold jsonpPush
    rw [hdrain]
  · rw [(require_frame cd.executeModules (deliverMark cd s)).2.2.1]
    exact hq

/-- Witness for the amended C6 at the boot state. -/
theorem c6_witness :
    (deliverMark c6Data initState).chunkQueue = [] ∧
    DrainTerminates (deliverMark c6Data initState) ∧
    drainFuel 0 (deliverMark c6Data initState) = some (.ok (), deliverMark c6Data initState) ∧
    ∃ r s', jsonpPush 0 c6Data initState = some (r, s') ∧ s'.chunkQueue = [] :=
  c6_amended_empty_queue_drain_terminates initState c6Data 0 rfl

/-! ## C7: deferred entries fire only when all required units are done -/

theorem cellDone_iff (c : ChunkCell) : cellDone c = true ↔ c = .done := by
  cases c <;> simp [cellDone]

theorem fulfilledIn_true_iff (ic : List (Nat × ChunkCell)) (deps : List Nat) :
    fulfilledIn ic deps = true ↔ ∀ d ∈ deps, getCell ic d = .done := by
  simp [fulfilledIn, List.all_eq_true, cellDone_iff]

theorem entryCount_cons (e x : Entry) (q : List Entry) :
    entryCount e (x :: q) = entryCount e q + (if x = e then 1 else 0) := by
  by_cases h : x = e <;> simp [entryCount, List.countP_cons, h]

theorem entryCount_zero_iff (e : Entry) (q : List Entry) :
    entryCount e q = 0 ↔ e ∉ q := by
  constructor
  · intro h hmem
    have := List.countP_eq_zero.mp h e hmem
    simp at this
  · intro h
    apply List.countP_eq_zero.mpr
    intro a ha
    simp
    intro heq
    exact h (heq ▸ ha)

/-- Unfolding `checkAux` on a fulfilled head entry. -/
theorem checkAux_cons_ful (x : Entry) (rest : List Entry) (s : RtState) (last : Option Nat)
    (h : fulfilledIn s.installedChunks x.deps = true) :
    checkAux (x :: rest) s last =
      (match __webpack_require__ x.moduleId
          { s with sField := some x.moduleId, log := s.log ++ [REvent.execEntry x] } with
       | (.error err, s2) => (rest, .error err, s2)
       | (.ok addr, s2) => checkAux rest s2 (some addr)) := by
  simp only [checkAux]
  rw [if_pos h]

/-- Unfolding `checkAux` on an unfulfilled head entry. -/
theorem checkAux_cons_unful (x : Entry) (rest : List Entry) (s : RtState) (last : Option Nat)
    (h : fulfilledIn s.installedChunks x.deps = false) :
    checkAux (x :: rest) s last =
      (x :: (checkAux rest s last).1,
       (checkAux rest s last).2.1, (checkAux rest s last).2.2) := by
  simp only [checkAux]
  rw [if_neg (by simp [h])]

/-- The require step of a fulfilled entry preserves `installedChunks`. -/
theorem require_step_ic (x : Entry) (s : RtState) (r : Except JsErr Nat) (s2 : RtState)
    (heq : __webpack_require__ x.moduleId
        { s with sField := some x.moduleId, log := s.log ++ [REvent.execEntry x] } = (r, s2)) :
    s2.installedChunks = s.installedChunks := by
  have hfr := (require_frame x.moduleId
    { s with sField := some x.moduleId, log := s.log ++ [REvent.execEntry x] }).1
  rw [heq] at hfr
  exact hfr

/-- The require step of a fulfilled entry adds one `execEntry` event for
that entry and no other. -/
theorem require_step_log (x : Entry) (s : RtState) (r : Except JsErr Nat) (s2 : RtState)
    (heq : __webpack_require__ x.moduleId
        { s with sField := some x.moduleId, log := s.log ++ [REvent.execEntry x] } = (r, s2))
    (e : Entry) :
    execCount e s2.log = execCount e s.log + (if x = e then 1 else 0) := by
  have hfr := (require_frame x.moduleId
    { s with sField := some x.moduleId, log := s.log ++ [REvent.execEntry x] }).2.2.2.2.2 e
  rw [heq] at hfr
  rw [hfr]
  exact execCount_append_exec e x s.log

/-- The scan only ever removes entries from the queue. -/
theorem checkAux_subset (q : List Entry) (s : RtState) (last : Option Nat) :
    ∀ x ∈ (checkAux q s last).1, x ∈ q := by
  induction q generalizing s last with
  | nil => simp [checkAux]
  | cons x rest ih =>
    by_cases hful : fulfilledIn s.installedChunks x.deps
    · rw [checkAux_cons_ful x rest s last hful]
      cases hreq : __webpack_require__ x.moduleId
          { s with sField := some x.moduleId, log := s.log ++ [REvent.execEntry x] } with
      | mk r s2 =>
        cases r with
        | error err =>
          intro y hy
          exact List.mem_cons_of_mem x hy
        | ok addr =>
          intro y hy
          exact List.mem_cons_of_mem x (ih s2 (some addr) y hy)
    · rw [checkAux_cons_unful x rest s last (by simpa using hful)]
      intro y hy
      rcases List.mem_cons.mp hy with h | h
      · exact h ▸ List.mem_cons_self x rest
      · exact List.mem_cons_of_mem x (ih s last y h)

/-- An entry not on the queue is never fired by the scan. -/
theorem checkAux_log_of_notmem (e : Entry) (q : List Entry) :
    ∀ (s : RtState) (last : Option Nat), entryCount e q = 0 →
      execCount e (checkAux q s last).2.2.log = execCount e s.log := by
  induction q with
  | nil =>
    intro s last h
    simp [checkAux]
  | cons x rest ih =>
    intro s last h
    have hx : x ≠ e := by
      intro hxe
      rw [entryCount_cons, hxe, if_pos rfl] at h
      omega
    have hrest : entryCount e rest = 0 := by
      rw [entryCount_cons, if_neg hx] at h
      omega
    by_cases hful : fulfilledIn s.installedChunks x.deps
    · rw [checkAux_cons_ful x rest s last hful]
      cases hreq : __webpack_require__ x.moduleId
          { s with sField := some x.moduleId, log := s.log ++ [REvent.execEntry x] } with
      | mk r s2 =>
        have hlog := require_step_log x s r s2 hreq e
        rw [if_neg hx] at hlog
        cases r with
        | error err =>
          simpa using hlog
        | ok addr =>
          rw [ih s2 (some addr) hrest, hlog]
          omega
    · rw [checkAux_cons_unful x rest s last (by simpa using hful)]
      exact ih s last hrest

/-- An entry with an unfulfilled dependency survives the scan and is not
fired by it. -/
theorem checkAux_unfulfilled (e : Entry) (q : List Entry) :
    ∀ (s : RtState) (last : Option Nat),
      fulfilledIn s.installedChunks e.deps = false →
      (e ∈ q → e ∈ (checkAux q s last).1) ∧
      execCount e (checkAux q s last).2.2.log = execCount e s.log := by
  induction q with
  | nil =>
    intro s last hf
    exact ⟨fun h => absurd h (List.not_mem_nil e), by simp [checkAux]⟩
  | cons x rest ih =>
    intro s last hf
    by_cases hful : fulfilledIn s.installedChunks x.deps
    · have hx : x ≠ e := by
        intro hxe
        rw [hxe, hf] at hful
        exact Bool.noConfusion hful
      cases hreq : __webpack_require__ x.moduleId
          { s with sField := some x.moduleId, log := s.log ++ [REvent.execEntry x] } with
      | mk r s2 =>
        have hic := require_step_ic x s r s2 hreq
        have hlog := require_step_log x s r s2 hreq e
        rw [if_neg hx] at hlog
        cases r with
        | error err =>
          have hred : checkAux (x :: rest) s last = (rest, Except.error err, s2) := by
            rw [checkAux_cons_ful x rest s last hful, hreq]
          rw [hred]
          constructor
          · intro hmem
            show e ∈ rest
            rcases List.mem_cons.mp hmem with h | h
            · exact absurd h (fun hh => hx hh.symm)
            · exact h
          · show execCount e s2.log = execCount e s.log
            omega
        | ok addr =>
          have hred : checkAux (x :: rest) s last = checkAux rest s2 (some addr) := by
            rw [checkAux_cons_ful x rest s last hful, hreq]
          rw [hred]
          have hf2 : fulfilledIn s2.installedChunks e.deps = false := by
            rw [hic]
            exact hf
          have hrec := ih s2 (some addr) hf2
          constructor
          · intro hmem
            rcases List.mem_cons.mp hmem with h | h
            · exact absurd h (fun hh => hx hh.symm)
            · exact hrec.1 h
          · rw [hrec.2, hlog]
            omega
    · have hful' : fulfilledIn s.installedChunks x.deps = false := by
        simpa using hful
      rw [checkAux_cons_unful x rest s last hful']
      have hrec := ih s last hf
      constructor
      · intro hmem
        show e ∈ x :: (checkAux rest s last).1
        rcases List.mem_cons.mp hmem with h | h
        · rw [h]
          exact List.mem_cons_self x _
        · exact List.mem_cons_of_mem x (hrec.1 h)
      · exact hrec.2

/-- An entry occurring once on the queue, with all dependencies complete,
is removed by a successful scan and fired exactly once. -/
theorem checkAux_fulfilled_once (e : Entry) (q : List Entry) :
    ∀ (s : RtState) (last : Option Nat),
      entryCount e q = 1 →
      fulfilledIn s.installedChunks e.deps = true →
      (∀ err, (checkAux q s last).2.1 ≠ .error err) →
      entryCount e (checkAux q s last).1 = 0 ∧
      execCount e (checkAux q s last).2.2.log = execCount e s.log + 1 := by
  induction q with
  | nil =>
    intro s last h1 _ _
    simp [entryCount] at h1
  | cons x rest ih =>
    intro s last h1 h2 h3
    by_cases hx : x = e
    · have hful : fulfilledIn s.installedChunks x.deps = true := by
        rw [hx]
        exact h2
      have hrest : entryCount e rest = 0 := by
        rw [entryCount_cons, if_pos hx] at h1
        omega
      cases hreq : __webpack_require__ x.moduleId
          { s with sField := some x.moduleId, log := s.log ++ [REvent.execEntry x] } with
      | mk r s2 =>
        have hlog := require_step_log x s r s2 hreq e
        rw [if_pos hx] at hlog
        cases r with
        | error err =>
          have hred : checkAux (x :: rest) s last = (rest, Except.error err, s2) := by
            rw [checkAux_cons_ful x rest s last hful, hreq]
          exact absurd (by rw [hred]) (h3 err)
        | ok addr =>
          have hred : checkAux (x :: rest) s last = checkAux rest s2 (some addr) := by
            rw [checkAux_cons_ful x rest s last hful, hreq]
          rw [hred]
          constructor
          · rw [entryCount_zero_iff]
            intro hmem
            exact (entryCount_zero_iff e rest).mp hrest
              (checkAux_subset rest s2 (some addr) e hmem)
          · rw [checkAux_log_of_notmem e rest s2 (some addr) hrest, hlog]
    · have hrest : entryCount e rest = 1 := by
        rw [entryCount_cons, if_neg hx] at h1
        omega
      by_cases hful : fulfilledIn s.installedChunks x.deps
      · cases hreq : __webpack_require__ x.moduleId
            { s with sField := some x.moduleId, log := s.log ++ [REvent.execEntry x] } with
        | mk r s2 =>
          have hic := require_step_ic x s r s2 hreq
          have hlog := require_step_log x s r s2 hreq e
          rw [if_neg hx] at hlog
          cases r with
          | error err =>
            have hred : checkAux (x :: rest) s last = (rest, Except.error err, s2) := by
              rw [checkAux_cons_ful x rest s last hful, hreq]
            exact absurd (by rw [hred]) (h3 err)
          | ok addr =>
            have hred : checkAux (x :: rest) s last = checkAux rest s2 (some addr) := by
              rw [checkAux_cons_ful x rest s last hful, hreq]
            rw [hred] at h3 ⊢
            have h2' : fulfilledIn s2.installedChunks e.deps = true := by
              rw [hic]
              exact h2
            have hrec := ih s2 (some addr) hrest h2' h3
            refine ⟨hrec.1, ?_⟩
            rw [hrec.2, hlog]
      · have hful' : fulfilledIn s.installedChunks x.deps = false := by
          simpa using hful
        rw [checkAux_cons_unful x rest s last hful'] at h3 ⊢
        have hrec := ih s last hrest h2 (by exact h3)
        constructor
        · show entryCount e (x :: (checkAux rest s last).1) = 0
          rw [entryCount_cons, if_neg hx, hrec.1]
        · exact hrec.2

/-- C7: a deferred entry is never fired by a queue scan while one of its
required units is not marked complete in `installedChunks` (it stays
queued); and an entry occurring once on the queue, all of whose required
units are complete, is removed by a successful scan and fired exactly
once. -/
theorem c7_deferred_entry_gating (s : RtState) (e : Entry) :
    ((∃ d ∈ e.deps, getCell s.installedChunks d ≠ .done) → e ∈ s.chunkQueue →
       e ∈ (checkDeferredModules s).2.chunkQueue ∧
       execCount e (checkDeferredModules s).2.log = execCount e s.log) ∧
    (entryCount e s.chunkQueue = 1 → (∀ d ∈ e.deps, getCell s.installedChunks d = .done) →
       (∀ err, (checkDeferredModules s).1 ≠ .error err) →
       entryCount e (checkDeferredModules s).2.chunkQueue = 0 ∧
       execCount e (checkDeferredModules s).2.log = execCount e s.log + 1) := by
  have hq : (checkDeferredModules s).2.chunkQueue = (checkAux s.chunkQueue s none).1 := rfl
  have hl : (checkDeferredModules s).2.log = (checkAux s.chunkQueue s none).2.2.log := rfl
  have hr : (checkDeferredModules s).1 = (checkAux s.chunkQueue s none).2.1 := rfl
  constructor
  · intro hex hmem
    have hf : fulfilledIn s.installedChunks e.deps = false := by
      rcases hex with ⟨d, hd, hne⟩
      apply Bool.eq_false_iff.mpr
      intro hall
      exact hne (((fulfilledIn_true_iff _ _).mp hall) d hd)
    have hrec := checkAux_unfulfilled e s.chunkQueue s none hf
    constructor
    · rw [hq]
      exact hrec.1 hmem
    · rw [hl]
      exact hrec.2
  · intro h1 h2 h3
    have hf : fulfilledIn s.installedChunks e.deps = true :=
      (fulfilledIn_true_iff _ _).mpr h2
    have h3' : ∀ err, (checkAux s.chunkQueue s none).2.1 ≠ .error err := by
      intro err
      rw [← hr]
      exact h3 err
    have hrec := checkAux_fulfilled_once e s.chunkQueue s none h1 hf h3'
    constructor
    · rw [hq]
      exact hrec.1
    · rw [hl]
      exact hrec.2

/-- Witness for C7: an entry waiting on the undelivered unit 8 stays
queued and unfired; an entry waiting only on the completed unit 77 is
removed and fired once. -/
theorem c7_witness :
    (({ moduleId := some 1, deps := [8] } : Entry) ∈ (checkDeferredModules c7Stuck).2.chunkQueue ∧
     execCount { moduleId := some 1, deps := [8] } (checkDeferredModules c7Stuck).2.log =
       execCount { moduleId := some 1, deps := [8] } c7Stuck.log) ∧
    (entryCount { moduleId := some 1, deps := [77] } (checkDeferredModules c7Ready).2.chunkQueue = 0 ∧
     execCount { moduleId := some 1, deps := [77] } (checkDeferredModules c7Ready).2.log =
       execCount { moduleId := some 1, deps := [77] } c7Ready.log + 1) := by
  constructor
  · exact (c7_deferred_entry_gating c7Stuck { moduleId := some 1, deps := [8] }).1
      ⟨8, by decide, by decide⟩ (by decide)
  · refine (c7_deferred_entry_gating c7Ready { moduleId := some 1, deps := [77] }).2
      (by decide) (by decide) ?_
    intro err h
    rw [show (checkDeferredModules c7Ready).1 = Except.ok (some 0) from by decide] at h
    exact Except.noConfusion h
